import Mathlib

/-!
Shallow embedding of `src/config_parser.py` (PySuiteCRM config parsing).

The Python module defines:
  * `PySuiteCRMConfigException` — the shared configuration exception;
  * `PySuiteCRMConfig` — a dataclass with fields `url`, `client_id`,
    `client_secret` and `custom_modules` (defaulting to the empty list);
  * `ENVParser` — reads `PYSUITECRM_URL`, `PYSUITECRM_CLIENT_ID`,
    `PYSUITECRM_CLIENT_SECRET` from the environment, memoizing the result
    in `parsed_config`;
  * `JSONParser` — eagerly loads and decodes a JSON file at construction
    time (`_load_file`), then `parse_config` splats the decoded document
    into the dataclass constructor, memoizing the result.

We model Python run-time values that can flow through the JSON path with
`JValue`, Python exceptions that these code paths can raise with `PyError`,
and each method as an explicit state-passing function.  An exception
propagating out of a method leaves the object as it was, so `parse_config`
returns the post-state of the object together with `Except PyError Unit`.
-/

set_option autoImplicit false

namespace PySuiteCRM

/-- A Python/JSON run-time value, as produced by `json.load`:
`null`, booleans, numbers, strings, arrays, objects (string-keyed dicts,
keys unique after decoding, modelled as association lists). -/
inductive JValue where
  | null
  | bool (b : Bool)
  | num (n : Int)
  | str (s : String)
  | arr (xs : List JValue)
  | obj (fields : List (String × JValue))

/-- The exceptions the embedded code paths can raise:
`PySuiteCRMConfigException` (the repository's shared configuration
exception, carrying its message), Python's built-in `TypeError` (raised by
a dataclass constructor call with bad keyword arguments, or by `**` applied
to a non-mapping), and `json.JSONDecodeError` (raised by `json.load` on
input that is not valid JSON). -/
inductive PyError where
  | pySuiteCRMConfigException (msg : String)
  | typeError (msg : String)
  | jsonDecodeError
deriving DecidableEq

/-- True exactly when the error is the shared `PySuiteCRMConfigException`. -/
def PyError.isConfigException : PyError → Bool
  | .pySuiteCRMConfigException _ => true
  | _ => false

/-- The `PySuiteCRMConfig` dataclass.  Python dataclasses do not check the
declared field types, so each field holds an arbitrary run-time value;
`custom_modules` defaults to the empty list. -/
structure PySuiteCRMConfig where
  url : JValue
  client_id : JValue
  client_secret : JValue
  custom_modules : JValue

/-- Python truthiness of an `Optional[str]`: `None` and `''` are falsy. -/
def pyTruthyOptStr : Option String → Bool
  | none => false
  | some s => !s.isEmpty

/-- Python truthiness of a decoded JSON value: `None`, `False`, `0`, `''`,
`[]` and `{}` are falsy. -/
def jvTruthy : JValue → Bool
  | .null => false
  | .bool b => b
  | .num n => n != 0
  | .str s => !s.isEmpty
  | .arr xs => !xs.isEmpty
  | .obj fields => !fields.isEmpty

/-- Whether a decoded JSON value is an object (a Python dict, hence a
mapping acceptable to `**`). -/
def JValue.isObj : JValue → Bool
  | .obj _ => true
  | _ => false

/-- The process environment, as read through `os.environ.get`. -/
def Env : Type := String → Option String

/-- Models `os.environ.get(key)`. -/
def os_environ_get (env : Env) (key : String) : Option String := env key

/-- The field names of the `PySuiteCRMConfig` dataclass, i.e. the keyword
parameters its generated constructor accepts. -/
def configFieldNames : List String :=
  ["url", "client_id", "client_secret", "custom_modules"]

/-- Keyword lookup in the splatted dict (keys are unique after JSON
decoding, so first match is the match). -/
def kwargLookup (kwargs : List (String × JValue)) (key : String) : Option JValue :=
  (kwargs.find? (fun p => p.1 == key)).map Prod.snd

/-- The call `PySuiteCRMConfig(**kwargs)`: the dataclass-generated
constructor rejects unknown keyword arguments and missing required
arguments with `TypeError`; `custom_modules` defaults to the empty list. -/
def pySuiteCRMConfigCall (kwargs : List (String × JValue)) :
    Except PyError PySuiteCRMConfig :=
  match kwargs.find? (fun p => !(configFieldNames.contains p.1)) with
  | some p =>
      .error (.typeError ("__init__() got an unexpected keyword argument " ++ p.1))
  | none =>
      match kwargLookup kwargs "url", kwargLookup kwargs "client_id",
            kwargLookup kwargs "client_secret" with
      | some u, some c, some s =>
          .ok ⟨u, c, s, (kwargLookup kwargs "custom_modules").getD (.arr [])⟩
      | _, _, _ =>
          .error (.typeError "__init__() missing required positional arguments")

/-- The `ENVParser` object: its only state is the memoization slot
`parsed_config`, `None` after `__init__`. -/
structure ENVParser where
  parsed_config : Option PySuiteCRMConfig

/-- Embeds `ENVParser.__init__`: sets `parsed_config` to `None`. -/
def ENVParser.init : ENVParser := ⟨none⟩

/-- Embeds `ENVParser.parse_config`, as a state-passing function over the
environment.  Returns the post-state of the object and either `()` or the
raised exception; an exception is raised before the assignment to
`self.parsed_config`, so the state is then unchanged. -/
def ENVParser.parse_config (self : ENVParser) (env : Env) :
    ENVParser × Except PyError Unit :=
  if self.parsed_config.isSome then
    (self, .ok ())
  else
    let url := os_environ_get env "PYSUITECRM_URL"
    let client_id := os_environ_get env "PYSUITECRM_CLIENT_ID"
    let client_secret := os_environ_get env "PYSUITECRM_CLIENT_SECRET"
    if !pyTruthyOptStr url || !pyTruthyOptStr client_id
        || !pyTruthyOptStr client_secret then
      (self, .error (.pySuiteCRMConfigException "Invalid ENV variables."))
    else
      ({ parsed_config := some ⟨.str (url.getD ""), .str (client_id.getD ""),
          .str (client_secret.getD ""), .arr []⟩ }, .ok ())

/-- The `JSONParser` object: `_json_config` holds the decoded document
kept from construction time, `parsed_config` is the memoization slot. -/
structure JSONParser where
  json_config : JValue
  parsed_config : Option PySuiteCRMConfig

/-- Embeds `JSONParser._load_file`: `json.load` either raises `JSONDecodeError`
(the file is not valid JSON, modelled as decode result `none`) or yields a
value; a falsy value raises the shared configuration exception. -/
def JSONParser.load_file (decoded : Option JValue) : Except PyError JValue :=
  match decoded with
  | none => .error .jsonDecodeError
  | some json_config =>
      if !jvTruthy json_config then
        .error (.pySuiteCRMConfigException "Could not load JSON file.")
      else
        .ok json_config

/-- Embeds `JSONParser.__init__`: eagerly loads the file (here: its decode
result); on success the object exists with the document stored and the
memoization slot `None`, otherwise the exception propagates and no object
exists. -/
def JSONParser.init (decoded : Option JValue) : Except PyError JSONParser :=
  match JSONParser.load_file decoded with
  | .error e => .error e
  | .ok j => .ok ⟨j, none⟩

/-- Embeds `JSONParser.parse_config`: memoized splat of the stored document into
the dataclass constructor.  `**` demands a mapping, so a non-object
document raises `TypeError`; constructor failures propagate before the
assignment, leaving the slot empty. -/
def JSONParser.parse_config (self : JSONParser) :
    JSONParser × Except PyError Unit :=
  if self.parsed_config.isSome then
    (self, .ok ())
  else
    match self.json_config with
    | .obj kwargs =>
        match pySuiteCRMConfigCall kwargs with
        | .error e => (self, .error e)
        | .ok cfg => ({ self with parsed_config := some cfg }, .ok ())
    | _ => (self, .error (.typeError "argument after ** must be a mapping"))

/-- A concrete well-formed environment for witnesses. -/
def envGood : Env := fun key =>
  if key = "PYSUITECRM_URL" then some "https://crm.example.com"
  else if key = "PYSUITECRM_CLIENT_ID" then some "abc"
  else if key = "PYSUITECRM_CLIENT_SECRET" then some "s3cr3t"
  else none

/-- A concrete environment missing `PYSUITECRM_CLIENT_SECRET`. -/
def envBad : Env := fun key =>
  if key = "PYSUITECRM_URL" then some "https://crm.example.com"
  else if key = "PYSUITECRM_CLIENT_ID" then some "abc"
  else none

/-- The empty environment. -/
def envEmpty : Env := fun _ => none

end PySuiteCRM

namespace PySuiteCRM

/-- C1: for every environment binding the three `PYSUITECRM_*`
variables to non-empty strings, `parse_config()` on a freshly constructed
`ENVParser` succeeds and stores in `parsed_config` a config record with
exactly those three values and the empty list of custom modules. -/
theorem c1_env_parse_success (env : Env) (u c s : String)
    (hu : env "PYSUITECRM_URL" = some u)
    (hc : env "PYSUITECRM_CLIENT_ID" = some c)
    (hs : env "PYSUITECRM_CLIENT_SECRET" = some s)
    (hu' : u ≠ "") (hc' : c ≠ "") (hs' : s ≠ "") :
    ENVParser.parse_config ENVParser.init env =
      (⟨some ⟨.str u, .str c, .str s, .arr []⟩⟩, .ok ()) := by
  have hu0 : u.isEmpty = false := by
    cases h : u.isEmpty
    · rfl
    · exact absurd ((String.isEmpty_iff u).mp h) hu'
  have hc0 : c.isEmpty = false := by
    cases h : c.isEmpty
    · rfl
    · exact absurd ((String.isEmpty_iff c).mp h) hc'
  have hs0 : s.isEmpty = false := by
    cases h : s.isEmpty
    · rfl
    · exact absurd ((String.isEmpty_iff s).mp h) hs'
  simp [ENVParser.parse_config, ENVParser.init, os_environ_get,
    hu, hc, hs, pyTruthyOptStr, hu0, hc0, hs0]

/-- Witness for C1 at a concrete environment. -/
theorem c1_env_parse_success_witness :
    ENVParser.parse_config ENVParser.init envGood =
      (⟨some ⟨.str "https://crm.example.com", .str "abc", .str "s3cr3t",
        .arr []⟩⟩, .ok ()) :=
  c1_env_parse_success envGood "https://crm.example.com" "abc" "s3cr3t"
    rfl rfl rfl (by decide) (by decide) (by decide)

end PySuiteCRM

namespace PySuiteCRM

/-- A truthy `Optional[str]` is a non-empty string. -/
theorem pyTruthyOptStr_eq_true {o : Option String}
    (h : pyTruthyOptStr o = true) : ∃ u : String, o = some u ∧ u ≠ "" := by
  cases o with
  | none => simp [pyTruthyOptStr] at h
  | some s =>
    refine ⟨s, rfl, ?_⟩
    intro hs
    subst hs
    exact absurd h (by decide)

/-- Inversion of a successful `parse_config` call on a fresh `ENVParser`:
the environment held the three variables non-empty and the resulting state
caches exactly those values. -/
theorem ENVParser.parse_config_init_ok (env : Env) (p' : ENVParser)
    (h : ENVParser.parse_config ENVParser.init env = (p', .ok ())) :
    ∃ u c s : String,
      env "PYSUITECRM_URL" = some u ∧ u ≠ "" ∧
      env "PYSUITECRM_CLIENT_ID" = some c ∧ c ≠ "" ∧
      env "PYSUITECRM_CLIENT_SECRET" = some s ∧ s ≠ "" ∧
      p' = ⟨some ⟨.str u, .str c, .str s, .arr []⟩⟩ := by
  cases hu : pyTruthyOptStr (env "PYSUITECRM_URL") <;>
  cases hcid : pyTruthyOptStr (env "PYSUITECRM_CLIENT_ID") <;>
  cases hcs : pyTruthyOptStr (env "PYSUITECRM_CLIENT_SECRET") <;>
    simp [ENVParser.parse_config, ENVParser.init, os_environ_get,
      hu, hcid, hcs] at h
  obtain ⟨u, huv, hune⟩ := pyTruthyOptStr_eq_true hu
  obtain ⟨c, hcv, hcne⟩ := pyTruthyOptStr_eq_true hcid
  obtain ⟨s, hsv, hsne⟩ := pyTruthyOptStr_eq_true hcs
  refine ⟨u, c, s, huv, hune, hcv, hcne, hsv, hsne, ?_⟩
  simp [huv, hcv, hsv] at h
  exact h.symm

/-- C3: after a successful first `parse_config()` on a fresh `ENVParser`,
a second call under any environment (including one with the variables
changed or removed) returns with the same cached record and unchanged
state. -/
theorem c3_env_memoized (env env' : Env) (p' : ENVParser)
    (h : ENVParser.parse_config ENVParser.init env = (p', .ok ())) :
    ENVParser.parse_config p' env' = (p', .ok ()) := by
  obtain ⟨u, c, s, _, _, _, _, _, _, hp⟩ :=
    ENVParser.parse_config_init_ok env p' h
  subst hp
  simp [ENVParser.parse_config]

/-- Witness for C3: parse once under a full environment, then again under
the empty environment; the cached record survives unchanged. -/
theorem c3_env_memoized_witness :
    ENVParser.parse_config
      ⟨some ⟨.str "https://crm.example.com", .str "abc", .str "s3cr3t",
        .arr []⟩⟩ envEmpty =
      (⟨some ⟨.str "https://crm.example.com", .str "abc", .str "s3cr3t",
        .arr []⟩⟩, .ok ()) :=
  c3_env_memoized envGood envEmpty _ rfl

/-- C5: if any of the three environment variables is absent or empty,
`parse_config()` on a fresh `ENVParser` raises the invalid-environment-
variables configuration exception and the cached slot stays empty;
conversely, when all three are present and non-empty, no error is
raised. -/
theorem c5_env_error_handling (env : Env) :
    ((pyTruthyOptStr (env "PYSUITECRM_URL")
        && pyTruthyOptStr (env "PYSUITECRM_CLIENT_ID")
        && pyTruthyOptStr (env "PYSUITECRM_CLIENT_SECRET")) = false →
      ENVParser.parse_config ENVParser.init env =
        (ENVParser.init,
          .error (.pySuiteCRMConfigException "Invalid ENV variables."))) ∧
    ((pyTruthyOptStr (env "PYSUITECRM_URL")
        && pyTruthyOptStr (env "PYSUITECRM_CLIENT_ID")
        && pyTruthyOptStr (env "PYSUITECRM_CLIENT_SECRET")) = true →
      (ENVParser.parse_config ENVParser.init env).2 = .ok ()) := by
  cases hu : pyTruthyOptStr (env "PYSUITECRM_URL") <;>
  cases hcid : pyTruthyOptStr (env "PYSUITECRM_CLIENT_ID") <;>
  cases hcs : pyTruthyOptStr (env "PYSUITECRM_CLIENT_SECRET") <;>
    simp [ENVParser.parse_config, ENVParser.init, os_environ_get,
      hu, hcid, hcs]

/-- Witness for C5: an environment missing the client secret fails with
the configuration exception and leaves the slot empty; a full environment
succeeds. -/
theorem c5_env_error_handling_witness :
    ENVParser.parse_config ENVParser.init envBad =
      (ENVParser.init,
        .error (.pySuiteCRMConfigException "Invalid ENV variables.")) ∧
    (ENVParser.parse_config ENVParser.init envGood).2 = .ok () :=
  ⟨(c5_env_error_handling envBad).1 (by decide),
   (c5_env_error_handling envGood).2 (by decide)⟩

end PySuiteCRM

namespace PySuiteCRM

/-- The decoded document from the spec's schema-mismatch example:
all required keys plus one unexpected key. -/
def docUnexpected : JValue :=
  .obj [("url", .str "u"), ("client_id", .str "c"), ("client_secret", .str "s"),
        ("unexpected", .str "x")]

/-- Counterexample to C2: on the spec's own example document the parser is
constructible, and `parse_config` fails with a plain `TypeError` from the
dataclass constructor, which is not the shared configuration exception. -/
theorem c2_counterexample :
    JSONParser.init (some docUnexpected) = .ok ⟨docUnexpected, none⟩ ∧
    (JSONParser.parse_config ⟨docUnexpected, none⟩).2 =
      .error (.typeError
        "__init__() got an unexpected keyword argument unexpected") ∧
    PyError.isConfigException
      (.typeError "__init__() got an unexpected keyword argument unexpected")
        = false :=
  ⟨rfl, rfl, rfl⟩

/-- If the splatted dict holds a key outside the dataclass's field names,
the constructor call raises the unexpected-keyword `TypeError`. -/
theorem pySuiteCRMConfigCall_find_some (kwargs : List (String × JValue))
    (p : String × JValue)
    (hfind : kwargs.find? (fun q => !(configFieldNames.contains q.1))
      = some p) :
    pySuiteCRMConfigCall kwargs =
      .error (.typeError
        ("__init__() got an unexpected keyword argument " ++ p.1)) := by
  unfold pySuiteCRMConfigCall
  rw [hfind]

/-- If every key is a field name but a required field is missing, the
constructor call raises the missing-argument `TypeError`. -/
theorem pySuiteCRMConfigCall_missing (kwargs : List (String × JValue))
    (hfind : kwargs.find? (fun q => !(configFieldNames.contains q.1)) = none)
    (h : kwargLookup kwargs "url" = none ∨
         kwargLookup kwargs "client_id" = none ∨
         kwargLookup kwargs "client_secret" = none) :
    pySuiteCRMConfigCall kwargs =
      .error (.typeError "__init__() missing required positional arguments")
      := by
  unfold pySuiteCRMConfigCall
  rw [hfind]
  cases hu : kwargLookup kwargs "url" <;>
  cases hc : kwargLookup kwargs "client_id" <;>
  cases hs : kwargLookup kwargs "client_secret" <;>
    simp_all

/-- An errored dataclass constructor call propagates out of `parse_config`
with the object state unchanged. -/
theorem JSONParser.parse_config_obj_error (q : JSONParser)
    (kwargs : List (String × JValue)) (e : PyError)
    (hq : q.parsed_config = none) (hj : q.json_config = .obj kwargs)
    (hcall : pySuiteCRMConfigCall kwargs = .error e) :
    JSONParser.parse_config q = (q, .error e) := by
  simp [JSONParser.parse_config, hq, hj, hcall]

/-- C2 (amended): for every decoded JSON object containing an unknown key
or omitting one of the required fields, the first `parse_config()` fails
with a `TypeError` raised by the dataclass constructor — a generic error,
not the shared configuration exception. -/
theorem c2_amended_schema_mismatch_typeerror (kwargs : List (String × JValue))
    (h : (kwargs.find? (fun p => !(configFieldNames.contains p.1))).isSome
          = true ∨
         kwargLookup kwargs "url" = none ∨
         kwargLookup kwargs "client_id" = none ∨
         kwargLookup kwargs "client_secret" = none) :
    ∃ msg : String,
      (JSONParser.parse_config ⟨.obj kwargs, none⟩).2 =
        .error (.typeError msg) ∧
      PyError.isConfigException (.typeError msg) = false := by
  cases hfind : kwargs.find? (fun p => !(configFieldNames.contains p.1)) with
  | some p =>
      refine ⟨"__init__() got an unexpected keyword argument " ++ p.1, ?_, rfl⟩
      rw [JSONParser.parse_config_obj_error ⟨.obj kwargs, none⟩ kwargs _
        rfl rfl (pySuiteCRMConfigCall_find_some kwargs p hfind)]
  | none =>
      have h' : kwargLookup kwargs "url" = none ∨
          kwargLookup kwargs "client_id" = none ∨
          kwargLookup kwargs "client_secret" = none := by
        rcases h with h | h
        · rw [hfind] at h
          simp at h
        · exact h
      refine ⟨"__init__() missing required positional arguments", ?_, rfl⟩
      rw [JSONParser.parse_config_obj_error ⟨.obj kwargs, none⟩ kwargs _
        rfl rfl (pySuiteCRMConfigCall_missing kwargs hfind h')]

/-- Witness for the amended C2 at the spec's example document. -/
theorem c2_amended_witness :
    ∃ msg : String,
      (JSONParser.parse_config
        ⟨.obj [("url", .str "u"), ("client_id", .str "c"),
          ("client_secret", .str "s"), ("unexpected", .str "x")], none⟩).2 =
        .error (.typeError msg) ∧
      PyError.isConfigException (.typeError msg) = false :=
  c2_amended_schema_mismatch_typeerror
    [("url", .str "u"), ("client_id", .str "c"),
     ("client_secret", .str "s"), ("unexpected", .str "x")]
    (Or.inl (by decide))

/-- Counterexample to C4: on content that is not valid JSON, construction
fails with `json.JSONDecodeError` (raised inside `json.load`), which is not
the shared configuration exception. -/
theorem c4_counterexample :
    JSONParser.init none = .error .jsonDecodeError ∧
    PyError.isConfigException .jsonDecodeError = false :=
  ⟨rfl, rfl⟩

/-- C4 (amended): for every file whose content is not valid JSON,
`_load_file` — and hence construction — fails with the JSON decode error,
not with the shared configuration exception. -/
theorem c4_amended_invalid_json_decode_error :
    JSONParser.load_file none = .error .jsonDecodeError ∧
    JSONParser.init none = .error .jsonDecodeError ∧
    PyError.isConfigException .jsonDecodeError = false :=
  ⟨rfl, rfl, rfl⟩

end PySuiteCRM

namespace PySuiteCRM

/-- C6: for both adapters, any failing `parse_config()` call leaves the
cached slot empty — the failure changes no adapter state. -/
theorem c6_failure_leaves_slot_empty (p : ENVParser) (env : Env)
    (q : JSONParser) :
    (∀ e : PyError, (ENVParser.parse_config p env).2 = .error e →
        (ENVParser.parse_config p env).1.parsed_config = none) ∧
    (∀ e : PyError, (JSONParser.parse_config q).2 = .error e →
        (JSONParser.parse_config q).1.parsed_config = none) := by
  constructor
  · intro e he
    cases hp : p.parsed_config with
    | some cfg => simp [ENVParser.parse_config, hp] at he
    | none =>
      by_cases hg : (!pyTruthyOptStr (os_environ_get env "PYSUITECRM_URL")
          || !pyTruthyOptStr (os_environ_get env "PYSUITECRM_CLIENT_ID")
          || !pyTruthyOptStr (os_environ_get env "PYSUITECRM_CLIENT_SECRET"))
          = true
      · simp [ENVParser.parse_config, hp, hg]
      · simp [ENVParser.parse_config, hp, hg] at he
  · intro e he
    cases hq : q.parsed_config with
    | some cfg => simp [JSONParser.parse_config, hq] at he
    | none =>
      cases hj : q.json_config with
      | null => simp [JSONParser.parse_config, hq, hj]
      | bool b => simp [JSONParser.parse_config, hq, hj]
      | num n => simp [JSONParser.parse_config, hq, hj]
      | str s => simp [JSONParser.parse_config, hq, hj]
      | arr xs => simp [JSONParser.parse_config, hq, hj]
      | obj kwargs =>
        cases hcall : pySuiteCRMConfigCall kwargs with
        | error e2 => simp [JSONParser.parse_config, hq, hj, hcall]
        | ok cfg => simp [JSONParser.parse_config, hq, hj, hcall] at he

/-- Witness for C6: a fresh `ENVParser` under an environment missing the
client secret, and a `JSONParser` over a document missing required keys,
both fail and keep their slots empty. -/
theorem c6_failure_leaves_slot_empty_witness :
    (ENVParser.parse_config ENVParser.init envBad).1.parsed_config = none ∧
    (JSONParser.parse_config
      ⟨.obj [("url", .str "u")], none⟩).1.parsed_config = none :=
  ⟨(c6_failure_leaves_slot_empty ENVParser.init envBad
      ⟨.obj [("url", .str "u")], none⟩).1
      (.pySuiteCRMConfigException "Invalid ENV variables.") rfl,
   (c6_failure_leaves_slot_empty ENVParser.init envBad
      ⟨.obj [("url", .str "u")], none⟩).2
      (.typeError "__init__() missing required positional arguments") rfl⟩

/-- A decoded document with all three required keys bound to empty strings:
truthy as a dict, so it passes `_load_file`. -/
def docEmptyStrings : JValue :=
  .obj [("url", .str ""), ("client_id", .str ""), ("client_secret", .str "")]

/-- Counterexample to C7: a `JSONParser` over a document whose required
keys are bound to empty strings is constructible, and its `parse_config()`
succeeds, caching a record with an empty `url`, `client_id` and
`client_secret`. -/
theorem c7_counterexample :
    JSONParser.init (some docEmptyStrings) = .ok ⟨docEmptyStrings, none⟩ ∧
    JSONParser.parse_config ⟨docEmptyStrings, none⟩ =
      (⟨docEmptyStrings, some ⟨.str "", .str "", .str "", .arr []⟩⟩,
        .ok ()) :=
  ⟨rfl, rfl⟩

/-- C7 (amended): every record cached by a successful `parse_config()` of
a fresh `ENVParser` has non-empty string `url`, `client_id` and
`client_secret`; the JSON path performs no such validation and can cache
empty values. -/
theorem c7_amended_env_fields_nonempty (env : Env) (p' : ENVParser)
    (cfg : PySuiteCRMConfig)
    (h : ENVParser.parse_config ENVParser.init env = (p', .ok ()))
    (hc : p'.parsed_config = some cfg) :
    (∃ u : String, cfg.url = .str u ∧ u ≠ "") ∧
    (∃ c : String, cfg.client_id = .str c ∧ c ≠ "") ∧
    (∃ s : String, cfg.client_secret = .str s ∧ s ≠ "") := by
  obtain ⟨u, c, s, _, hune, _, hcne, _, hsne, hp⟩ :=
    ENVParser.parse_config_init_ok env p' h
  subst hp
  simp only [Option.some.injEq] at hc
  subst hc
  exact ⟨⟨u, rfl, hune⟩, ⟨c, rfl, hcne⟩, ⟨s, rfl, hsne⟩⟩

/-- Witness for the amended C7 at a concrete environment. -/
theorem c7_amended_env_fields_nonempty_witness :
    (∃ u : String,
      (⟨.str "https://crm.example.com", .str "abc", .str "s3cr3t",
        .arr []⟩ : PySuiteCRMConfig).url = .str u ∧ u ≠ "") ∧
    (∃ c : String,
      (⟨.str "https://crm.example.com", .str "abc", .str "s3cr3t",
        .arr []⟩ : PySuiteCRMConfig).client_id = .str c ∧ c ≠ "") ∧
    (∃ s : String,
      (⟨.str "https://crm.example.com", .str "abc", .str "s3cr3t",
        .arr []⟩ : PySuiteCRMConfig).client_secret = .str s ∧ s ≠ "") :=
  c7_amended_env_fields_nonempty envGood
    ⟨some ⟨.str "https://crm.example.com", .str "abc", .str "s3cr3t",
      .arr []⟩⟩ _ rfl rfl

/-- The decoded document from the spec's happy-path file example. -/
def docGood : JValue :=
  .obj [("url", .str "u"), ("client_id", .str "c"), ("client_secret", .str "s")]

/-- C8: over a file decoding to exactly the keys `url`, `client_id`,
`client_secret` bound to `"u"`, `"c"`, `"s"`, construction succeeds and
`parse_config()` caches the record with those values and the empty list of
custom modules. -/
theorem c8_json_happy_path :
    JSONParser.init (some docGood) = .ok ⟨docGood, none⟩ ∧
    JSONParser.parse_config ⟨docGood, none⟩ =
      (⟨docGood, some ⟨.str "u", .str "c", .str "s", .arr []⟩⟩, .ok ()) :=
  ⟨rfl, rfl⟩

/-- C9: for every file whose content decodes to a falsy document (`null`,
`{}`, an empty structure, …), construction fails with the
unreadable-configuration-source exception, so no parser object exists. -/
theorem c9_falsy_document_rejected (j : JValue) (h : jvTruthy j = false) :
    JSONParser.init (some j) =
      .error (.pySuiteCRMConfigException "Could not load JSON file.") := by
  simp [JSONParser.init, JSONParser.load_file, h]

/-- Witness for C9 at the empty JSON object. -/
theorem c9_falsy_document_rejected_witness :
    JSONParser.init (some (.obj [])) =
      .error (.pySuiteCRMConfigException "Could not load JSON file.") :=
  c9_falsy_document_rejected (.obj []) rfl

/-- C10: for every file decoding to a truthy non-object value,
construction succeeds — only truthiness is validated — and the following
`parse_config()` fails with the generic `TypeError` raised by `**` on a
non-mapping, which is not the shared configuration exception. -/
theorem c10_truthy_non_object (j : JValue) (ht : jvTruthy j = true)
    (hobj : JValue.isObj j = false) :
    JSONParser.init (some j) = .ok ⟨j, none⟩ ∧
    JSONParser.parse_config ⟨j, none⟩ =
      (⟨j, none⟩, .error (.typeError "argument after ** must be a mapping"))
      ∧
    PyError.isConfigException
      (.typeError "argument after ** must be a mapping") = false := by
  refine ⟨?_, ?_, rfl⟩
  · simp [JSONParser.init, JSONParser.load_file, ht]
  · cases j with
    | null => simp [JSONParser.parse_config]
    | bool b => simp [JSONParser.parse_config]
    | num n => simp [JSONParser.parse_config]
    | str s => simp [JSONParser.parse_config]
    | arr xs => simp [JSONParser.parse_config]
    | obj fields => simp [JValue.isObj] at hobj

/-- Witness for C10 at a non-empty JSON array. -/
theorem c10_truthy_non_object_witness :
    JSONParser.init (some (.arr [.num 1])) = .ok ⟨.arr [.num 1], none⟩ ∧
    JSONParser.parse_config ⟨.arr [.num 1], none⟩ =
      (⟨.arr [.num 1], none⟩,
        .error (.typeError "argument after ** must be a mapping")) ∧
    PyError.isConfigException
      (.typeError "argument after ** must be a mapping") = false :=
  c10_truthy_non_object (.arr [.num 1]) rfl rfl

end PySuiteCRM
